import Mathlib

/-!
Verification development for the shared PostgreSQL connection helpers
(`db_config.py`): environment parsing, the lazily created shared pool,
the scoped-connection provider with commit/rollback handling, and the
scalar query helper.

The source module calls a helper named `_build_connect_kwargs` at two
places (`connect`, and the pool-construction branch of `get_pool`) but
contains no definition of that name and no import that would bind it.
The raw module is embedded as-is (see `connect`, `get_pool`): evaluating
that unbound name raises a NameError.  For the behavioural properties of
the spec, the missing helper is modelled from the spec's Configuration
Resolver section (see `build_connect_kwargs`), and the spec-completed
variants `connect_modelled`, `get_pool_modelled`, `connection_scope`,
`fetch_value` embed the rest of the module unchanged on top of it.

Python-level conventions of the embedding:
* environments are partial maps `String → Option String` (os.environ);
* Python `int(...)` is modelled by `pyInt` (whitespace stripping, one
  optional sign, decimal digits with single interior underscores);
* exceptions are values of `PyExn`; fallible code returns `Except`;
* the operations performed on the driver/pool black boxes are recorded
  as a trace of `Ev` events.
-/

/-- A process environment: os.getenv returns `none` for an unset name. -/
def Env : Type := String → Option String

/-- `os.getenv name default`. -/
def envGet (env : Env) (name defaultVal : String) : String :=
  (env name).getD defaultVal

/-- Whitespace accepted (and stripped) by Python `int(str)`. -/
def isPySpace (c : Char) : Bool :=
  c = ' ' || c = '\t' || c = '\n' || c = '\r' || c = '\x0b' || c = '\x0c'

/-- Strip leading and trailing whitespace. -/
def pyStrip (cs : List Char) : List Char :=
  ((cs.dropWhile isPySpace).reverse.dropWhile isPySpace).reverse

/-- Numeric value of a decimal digit character. -/
def digitVal (c : Char) : Nat := c.toNat - 48

/-- Digit run of Python `int`: decimal digits, a single underscore may
separate two digits; the flag records whether the previous character was
a digit (so that an underscore may follow). -/
def pyDigits : Bool → Nat → List Char → Option Nat
  | true, acc, [] => some acc
  | false, _, [] => none
  | prevDigit, acc, c :: cs =>
    if c.isDigit then pyDigits true (10 * acc + digitVal c) cs
    else if c = '_' && prevDigit then pyDigits false acc cs
    else none

/-- Python `int(s)` for decimal strings: strip whitespace, one optional
sign, then a digit run; `none` models ValueError. -/
def pyInt (s : String) : Option Int :=
  match pyStrip s.toList with
  | '+' :: rest => (pyDigits false 0 rest).map (fun n => (n : Int))
  | '-' :: rest => (pyDigits false 0 rest).map (fun n => -(n : Int))
  | rest => (pyDigits false 0 rest).map (fun n => (n : Int))

/-- `_env_int(name, default)`: integer environment variable value, or the
default when the variable is unset or `int` raises ValueError. -/
def _env_int (env : Env) (name : String) (defaultVal : Int) : Int :=
  match env name with
  | none => defaultVal
  | some raw =>
    match pyInt raw with
    | some v => v
    | none => defaultVal

/-- `min_size` as computed in the pool-construction branch of `get_pool`:
`max(1, _env_int("SPEEDLIMIT_POOL_MIN_SIZE", 1))`. -/
def min_size (env : Env) : Int :=
  max 1 (_env_int env "SPEEDLIMIT_POOL_MIN_SIZE" 1)

/-- `max_size` as computed in the pool-construction branch of `get_pool`:
`max(min_size, _env_int("SPEEDLIMIT_POOL_MAX_SIZE", 5))`. -/
def max_size (env : Env) : Int :=
  max (min_size env) (_env_int env "SPEEDLIMIT_POOL_MAX_SIZE" 5)

/-- Row factory ("row formatting") modes a psycopg connection can carry:
the default tuple mode, the dict mode requested via `dict_rows`, and
arbitrary other factories a caller might have installed. -/
inductive RF where
  | tuple
  | dict
  | custom (n : Nat)
deriving DecidableEq

/-- The per-connection state this module reads and writes. -/
structure ConnState where
  rowFactory : RF
  autocommit : Bool
deriving DecidableEq

/-- Python exceptions that the embedded code can raise or propagate. -/
inductive PyExn where
  | nameError (missing : String)
  | runtimeError (msg : String)
  | userExn (n : Nat)
  | dbExn (n : Nat)
deriving DecidableEq

/-- Operations performed on the driver / pool black boxes, recorded as a
trace: opening and closing an unpooled connection, commit / rollback,
borrowing and returning a pooled connection, assigning `row_factory`,
constructing the shared pool, and executing a query. -/
inductive Ev where
  | connect (dictRows : Bool)
  | commit
  | rollback
  | close
  | acquire
  | release
  | setRF (m : RF)
  | poolCreate (minSize maxSize : Int)
  | execute (q : String) (ps : List Nat)
deriving DecidableEq

/-- The names bound at top level of the source module `db_config.py`
(its imports and its own definitions and assignments). -/
def moduleTopLevelNames : List String :=
  ["annotations", "os", "contextmanager", "Lock", "Iterator", "Optional",
   "psycopg", "dict_row", "RowFactory", "ConnectionPool",
   "_POOL", "_POOL_LOCK", "_env_int", "connect", "get_pool",
   "connection_scope", "fetch_value"]

/-- Whether the name `_build_connect_kwargs`, evaluated by `connect` and
by the pool-construction branch of `get_pool`, is bound in the module. -/
def hasBuildConnectKwargs : Bool :=
  moduleTopLevelNames.contains "_build_connect_kwargs"

/-- Connection keyword arguments as the Configuration Resolver produces
them. -/
structure ConnectKwargs where
  conninfo : Option String
  host : Option String
  port : Option String
  dbname : Option String
  user : Option String
  password : Option String
  dictRows : Bool
deriving DecidableEq

/-- Modelled from the spec: the source calls `_build_connect_kwargs` (in
`connect` and in the pool-construction branch of `get_pool`) but the
definition of that helper is absent from the source file.  Per the
spec's Configuration Resolver: the connection-string variable
(`SPEEDLIMIT_DATABASE_URL`) is read first and, when present and
non-empty, used verbatim; otherwise the discrete variables `PGHOST`,
`PGPORT`, `PGDATABASE`, `PGUSER`, `PGPASSWORD` are read, an unset
variable falling back to the driver default (modelled as `none`); the
requested row factory is threaded through. -/
def build_connect_kwargs (env : Env) (dictRows : Bool) : ConnectKwargs :=
  { conninfo :=
      match env "SPEEDLIMIT_DATABASE_URL" with
      | some s => if s = "" then none else some s
      | none => none,
    host := env "PGHOST", port := env "PGPORT", dbname := env "PGDATABASE",
    user := env "PGUSER", password := env "PGPASSWORD",
    dictRows := dictRows }

/-- The error message of the RuntimeError raised by `get_pool` when
`psycopg_pool` could not be imported. -/
def poolingErrorMsg : String :=
  "psycopg_pool is required for connection pooling. Install the \x27psycopg-pool\x27 package or set SPEEDLIMIT_DISABLE_POOLING=1."

/-- Spec-completed `connect`: builds the keyword arguments via the
modelled Configuration Resolver and opens one connection; the row
factory is fixed at creation time (`dict_row` when `dict_rows` else the
driver default), autocommit starts off. -/
def connect_modelled (env : Env) (dictRows : Bool) : ConnState :=
  let _kw := build_connect_kwargs env dictRows
  { rowFactory := if dictRows then RF.dict else RF.tuple,
    autocommit := false }

/-- `connect` embedded from the raw source: the body evaluates the name
`_build_connect_kwargs`, which is unbound in the module namespace, so
the call raises NameError before any connection is opened. -/
def connect (env : Env) (dictRows : Bool) : Except PyExn ConnState :=
  if hasBuildConnectKwargs then Except.ok (connect_modelled env dictRows)
  else Except.error (PyExn.nameError "_build_connect_kwargs")

/-- `get_pool` embedded from the raw source, sequential view: state is
the `_POOL` global (pool instances are numbered by a construction
counter `nextId`).  Returns (result, `_POOL` after, counter after,
events).  The unavailable-library check comes first; then the
double-checked `_POOL` test; the construction branch computes the pool
sizes and then evaluates the unbound name `_build_connect_kwargs`,
raising NameError before any `ConnectionPool` is constructed. -/
def get_pool (avail : Bool) (env : Env) (pool : Option Nat) (nextId : Nat) :
    Except PyExn Nat × Option Nat × Nat × List Ev :=
  if !avail then
    (Except.error (PyExn.runtimeError poolingErrorMsg), pool, nextId, [])
  else
    match pool with
    | some p => (Except.ok p, some p, nextId, [])
    | none =>
      let mn := min_size env
      let mx := max_size env
      if hasBuildConnectKwargs then
        let _kw := build_connect_kwargs env false
        (Except.ok nextId, some nextId, nextId + 1, [Ev.poolCreate mn mx])
      else
        (Except.error (PyExn.nameError "_build_connect_kwargs"), none, nextId, [])

/-- Spec-completed `get_pool`: identical to `get_pool` except that the
missing `_build_connect_kwargs` is the modelled Configuration Resolver,
so first-time construction succeeds. -/
def get_pool_modelled (avail : Bool) (env : Env) (pool : Option Nat) (nextId : Nat) :
    Except PyExn Nat × Option Nat × Nat × List Ev :=
  if !avail then
    (Except.error (PyExn.runtimeError poolingErrorMsg), pool, nextId, [])
  else
    match pool with
    | some p => (Except.ok p, some p, nextId, [])
    | none =>
      let mn := min_size env
      let mx := max_size env
      let _kw := build_connect_kwargs env false
      (Except.ok nextId, some nextId, nextId + 1, [Ev.poolCreate mn mx])

/-- `os.getenv("SPEEDLIMIT_DISABLE_POOLING", "0") == "1"` as evaluated at
the top of `connection_scope`. -/
def disablePooling (env : Env) : Bool :=
  envGet env "SPEEDLIMIT_DISABLE_POOLING" "0" == "1"

/-- One invocation of `connection_scope`, fully parameterised: the
environment, whether `psycopg_pool` imported, the requested `dict_rows`,
the `_POOL` global and construction counter before the call, the
connection the pool would hand out, the caller's body (receiving the
yielded connection; returning the events it performs, its outcome, and
the connection state it leaves behind), and whether the driver's
commit / rollback calls themselves raise. -/
structure ScopeArgs (α : Type) where
  env : Env
  poolingAvailable : Bool
  dictRows : Bool
  pool : Option Nat
  nextId : Nat
  pooledConn : ConnState
  body : ConnState → List Ev × Except PyExn α × ConnState
  commitRes : Option PyExn
  rollbackRes : Option PyExn

/-- Result of one `connection_scope` invocation: the trace of operations
(the provider's interleaved with the body's), the outcome seen by the
caller, the connection's state afterwards, and the `_POOL` global and
construction counter afterwards. -/
structure ScopeRes (α : Type) where
  events : List Ev
  outcome : Except PyExn α
  connAfter : ConnState
  poolAfter : Option Nat
  nextIdAfter : Nat

/-- Whether `connection_scope` takes the unpooled branch:
`disable_pooling or ConnectionPool is None`. -/
def unpooledMode {α : Type} (a : ScopeArgs α) : Bool :=
  disablePooling a.env || !a.poolingAvailable

/-- The unpooled branch of `connection_scope`: open a fresh connection,
yield it, commit on success (unconditionally), on any exception roll
back (unconditionally) and re-raise; an exception raised by `commit`
itself is caught by the same `except` clause (rollback, re-raise); a
`rollback` failure propagates instead of the caught one; the `finally`
clause closes the connection on every path.  The shared pool is never
consulted. -/
def unpooledScope {α : Type} (a : ScopeArgs α) : ScopeRes α :=
  let conn0 := connect_modelled a.env a.dictRows
  let r := a.body conn0
  match r.2.1 with
  | Except.ok v =>
    match a.commitRes with
    | none =>
      ⟨Ev.connect a.dictRows :: r.1 ++ [Ev.commit, Ev.close],
       Except.ok v, r.2.2, a.pool, a.nextId⟩
    | some ce =>
      match a.rollbackRes with
      | none =>
        ⟨Ev.connect a.dictRows :: r.1 ++ [Ev.commit, Ev.rollback, Ev.close],
         Except.error ce, r.2.2, a.pool, a.nextId⟩
      | some re =>
        ⟨Ev.connect a.dictRows :: r.1 ++ [Ev.commit, Ev.rollback, Ev.close],
         Except.error re, r.2.2, a.pool, a.nextId⟩
  | Except.error e =>
    match a.rollbackRes with
    | none =>
      ⟨Ev.connect a.dictRows :: r.1 ++ [Ev.rollback, Ev.close],
       Except.error e, r.2.2, a.pool, a.nextId⟩
    | some re =>
      ⟨Ev.connect a.dictRows :: r.1 ++ [Ev.rollback, Ev.close],
       Except.error re, r.2.2, a.pool, a.nextId⟩

/-- The connection as yielded on the pooled branch: the borrowed pooled
connection, switched to dict rows when requested. -/
def pooledYield {α : Type} (a : ScopeArgs α) : ConnState :=
  if a.dictRows then { a.pooledConn with rowFactory := RF.dict }
  else a.pooledConn

/-- The transaction-finalisation part of the pooled branch
(`try/except`), given the connection's autocommit flag at that point,
the body outcome, and whether commit / rollback raise: on success commit
only if not autocommit; on exception roll back only if not autocommit
and re-raise; a commit failure is caught by the `except` clause
(rollback then re-raise the commit error); a rollback failure propagates
instead.  Returns the finalisation events and the scope outcome. -/
def pooledTail {α : Type} (autocommit : Bool) (bout : Except PyExn α)
    (cr rr : Option PyExn) : List Ev × Except PyExn α :=
  match bout with
  | Except.ok v =>
    if autocommit then ([], Except.ok v)
    else
      match cr with
      | none => ([Ev.commit], Except.ok v)
      | some ce =>
        match rr with
        | none => ([Ev.commit, Ev.rollback], Except.error ce)
        | some re => ([Ev.commit, Ev.rollback], Except.error re)
  | Except.error e =>
    if autocommit then ([], Except.error e)
    else
      match rr with
      | none => ([Ev.rollback], Except.error e)
      | some re => ([Ev.rollback], Except.error re)

/-- The pooled branch of `connection_scope`: `get_pool()` (spec-completed,
so first-time construction succeeds), borrow a connection, remember its
`row_factory`, switch it to `dict_row` when requested, run the body,
finalise the transaction (`pooledTail`), and in the `finally` clause
restore the saved `row_factory` before the connection returns to the
pool on every path. -/
def pooledScope {α : Type} (a : ScopeArgs α) : ScopeRes α :=
  match get_pool_modelled a.poolingAvailable a.env a.pool a.nextId with
  | (Except.error e, pa, nid, pev) => ⟨pev, Except.error e, a.pooledConn, pa, nid⟩
  | (Except.ok _, pa, nid, pev) =>
    let prev := a.pooledConn.rowFactory
    let r := a.body (pooledYield a)
    let t := pooledTail r.2.2.autocommit r.2.1 a.commitRes a.rollbackRes
    ⟨pev ++ Ev.acquire :: (if a.dictRows then [Ev.setRF RF.dict] else []) ++
       r.1 ++ t.1 ++ [Ev.setRF prev, Ev.release],
     t.2, { r.2.2 with rowFactory := prev }, pa, nid⟩

/-- Spec-completed `connection_scope`: choose the unpooled branch exactly
when pooling is disabled via `SPEEDLIMIT_DISABLE_POOLING=1` or
`psycopg_pool` failed to import, else the pooled branch. -/
def connection_scope {α : Type} (a : ScopeArgs α) : ScopeRes α :=
  if unpooledMode a then unpooledScope a else pooledScope a

/-- The connection the caller's body receives, per branch. -/
def yieldedConn {α : Type} (a : ScopeArgs α) : ConnState :=
  if unpooledMode a then connect_modelled a.env a.dictRows else pooledYield a

/-- A body that performs only query executions on the connection (it
never itself commits, rolls back, closes, or touches the pool). -/
def bodyOnlyExecutes {α : Type}
    (body : ConnState → List Ev × Except PyExn α × ConnState) : Prop :=
  ∀ c e, e ∈ (body c).1 → ∃ q ps, e = Ev.execute q ps

/-- `fetch_value(query, params)`: run `connection_scope()` (plain-row
mode) whose body executes the query once with the given parameters,
fetches at most one row (`fetchone`, modelled by the head of the result
set `rows`), and evaluates `row[0] if row else None` (both a missing row
and an empty row are falsy). -/
def fetch_value (env : Env) (avail : Bool) (pool : Option Nat) (nextId : Nat)
    (pooledConn : ConnState) (cr rr : Option PyExn)
    (q : String) (ps : List Nat) (rows : List (List Nat)) :
    ScopeRes (Option Nat) :=
  connection_scope
    { env := env, poolingAvailable := avail, dictRows := false,
      pool := pool, nextId := nextId, pooledConn := pooledConn,
      body := fun conn =>
        ([Ev.execute q ps],
         Except.ok (match rows.head? with
                    | none => none
                    | some row => row.head?),
         conn),
      commitRes := cr, rollbackRes := rr }

/-- The entirely unset environment. -/
def emptyEnv : Env := fun _ => none

/-- An environment with only the pool-disable flag set to "1". -/
def envDisable : Env :=
  fun n => if n = "SPEEDLIMIT_DISABLE_POOLING" then some "1" else none

/-- A scope on the unpooled branch whose body sets the connection's
autocommit flag and completes successfully. -/
def c3args : ScopeArgs Unit :=
  { env := envDisable, poolingAvailable := true, dictRows := false,
    pool := none, nextId := 0, pooledConn := ⟨RF.tuple, false⟩,
    body := fun c => ([], Except.ok (), { c with autocommit := true }),
    commitRes := none, rollbackRes := none }

/-- A pooled scope whose body raises `userExn 0` and whose driver-level
rollback itself raises `dbExn 1`. -/
def c4args : ScopeArgs Unit :=
  { env := emptyEnv, poolingAvailable := true, dictRows := false,
    pool := some 0, nextId := 1, pooledConn := ⟨RF.tuple, false⟩,
    body := fun c => ([], Except.error (PyExn.userExn 0), c),
    commitRes := none, rollbackRes := some (PyExn.dbExn 1) }

/-- A pooled scope whose body turns autocommit on and then raises. -/
def c3autoArgs : ScopeArgs Unit :=
  { env := emptyEnv, poolingAvailable := true, dictRows := false,
    pool := some 0, nextId := 1, pooledConn := ⟨RF.tuple, false⟩,
    body := fun c => ([], Except.error (PyExn.userExn 1),
                      { c with autocommit := true }),
    commitRes := none, rollbackRes := none }

/-- A pooled scope whose body raises `userExn 2`; commit and rollback
behave normally. -/
def c4okArgs : ScopeArgs Unit :=
  { env := emptyEnv, poolingAvailable := true, dictRows := false,
    pool := some 0, nextId := 1, pooledConn := ⟨RF.tuple, false⟩,
    body := fun c => ([], Except.error (PyExn.userExn 2), c),
    commitRes := none, rollbackRes := none }

/-- A pooled scope that requests dict rows, whose body installs a custom
row factory and raises, and whose rollback also raises. -/
def c5args : ScopeArgs Unit :=
  { env := emptyEnv, poolingAvailable := true, dictRows := true,
    pool := some 0, nextId := 1, pooledConn := ⟨RF.custom 7, false⟩,
    body := fun c => ([], Except.error (PyExn.userExn 0),
                      { c with rowFactory := RF.custom 9 }),
    commitRes := none, rollbackRes := some (PyExn.dbExn 1) }

/-- The scope of `c5args`, followed by a scope on the same pooled
connection that does not request dict rows. -/
def c5argsNext : ScopeArgs Unit :=
  { env := emptyEnv, poolingAvailable := true, dictRows := false,
    pool := some 0, nextId := 1, pooledConn := (pooledScope c5args).connAfter,
    body := fun c => ([], Except.ok (), c),
    commitRes := none, rollbackRes := none }

/-- A pooled scope with an inert, query-only body that raises. -/
def c8args : ScopeArgs Unit :=
  { env := emptyEnv, poolingAvailable := true, dictRows := false,
    pool := none, nextId := 0, pooledConn := ⟨RF.tuple, false⟩,
    body := fun c => ([Ev.execute "SELECT 1" []], Except.error (PyExn.userExn 3), c),
    commitRes := none, rollbackRes := none }

/-- Pattern `p` occurs at the head of `cs`. -/
def listStarts : List Char → List Char → Bool
  | [], _ => true
  | _ :: _, [] => false
  | p :: ps, c :: cs => p = c && listStarts ps cs

/-- Pattern `p` occurs somewhere in `cs`. -/
def listOccurs (p : List Char) : List Char → Bool
  | [] => listStarts p []
  | c :: cs => listStarts p (c :: cs) || listOccurs p cs

/-- Substring test on strings (via their character lists). -/
def strOccurs (pat s : String) : Bool :=
  listOccurs pat.toList s.toList

/-- The events `get_pool()` contributes on the pooled branch: none when
the pool already exists, one construction with the computed sizes on
first use. -/
def pevOf {α : Type} (a : ScopeArgs α) : List Ev :=
  match a.pool with
  | some _ => []
  | none => [Ev.poolCreate (min_size a.env) (max_size a.env)]

/-- Program counter of one thread running `get_pool` under the
double-checked locking discipline: `checking` before the unguarded fast
`_POOL is None` test; `locked` after a failed fast test, waiting for /
holding `_POOL_LOCK`; `done r` returned with pool instance `r`. -/
inductive TPC where
  | checking
  | locked
  | done (r : Nat)
deriving DecidableEq

/-- Shared state of a process whose threads race through `get_pool`:
the `_POOL` global (pool instances numbered by the construction counter
`nextId`) and each thread's program counter. -/
structure Sys where
  pool : Option Nat
  nextId : Nat
  threads : List TPC
deriving DecidableEq

/-- One atomic step of some thread in `get_pool`.  The fast check is a
single read of `_POOL`; the whole `with _POOL_LOCK:` block is one atomic
action because the lock serialises it (re-check `_POOL`, and construct
— sizes, modelled `_build_connect_kwargs`, `ConnectionPool` — only if
still unset). -/
inductive PoolStep : Sys → Sys → Prop where
  | fastHit (s : Sys) (i p : Nat)
      (hi : s.threads.get? i = some TPC.checking) (hp : s.pool = some p) :
      PoolStep s ⟨s.pool, s.nextId, s.threads.set i (TPC.done p)⟩
  | fastMiss (s : Sys) (i : Nat)
      (hi : s.threads.get? i = some TPC.checking) (hp : s.pool = none) :
      PoolStep s ⟨s.pool, s.nextId, s.threads.set i TPC.locked⟩
  | lockedHit (s : Sys) (i p : Nat)
      (hi : s.threads.get? i = some TPC.locked) (hp : s.pool = some p) :
      PoolStep s ⟨s.pool, s.nextId, s.threads.set i (TPC.done p)⟩
  | lockedCreate (s : Sys) (i : Nat)
      (hi : s.threads.get? i = some TPC.locked) (hp : s.pool = none) :
      PoolStep s ⟨some s.nextId, s.nextId + 1, s.threads.set i (TPC.done s.nextId)⟩

/-- Initial state: `_POOL = None`, no pool constructed yet, `n` threads
about to call `get_pool`. -/
def initSys (n : Nat) : Sys :=
  ⟨none, 0, List.replicate n TPC.checking⟩

/-- Reachability by interleaving `PoolStep`s. -/
inductive Reaches : Sys → Sys → Prop where
  | refl (s : Sys) : Reaches s s
  | step {s t u : Sys} : Reaches s t → PoolStep t u → Reaches s u

/-- Invariant of the race: either no pool was ever constructed and no
thread has returned, or exactly pool `0` was constructed (the counter is
`1`) and every returned thread returned it. -/
def PoolInv (s : Sys) : Prop :=
  (s.pool = none ∧ s.nextId = 0 ∧ ∀ r : Nat, TPC.done r ∉ s.threads)
  ∨ (s.pool = some 0 ∧ s.nextId = 1 ∧ ∀ r : Nat, TPC.done r ∈ s.threads → r = 0)

/-- Intermediate states of a two-thread race through `get_pool`: thread 0
fails the fast check and takes the lock. -/
def c2s1 : Sys := ⟨none, 0, [TPC.locked, TPC.checking]⟩

/-- Thread 0 constructs the pool inside the lock and returns it. -/
def c2s2 : Sys := ⟨some 0, 1, [TPC.done 0, TPC.checking]⟩

/-- Thread 1 passes the fast check and returns the same pool. -/
def c2s3 : Sys := ⟨some 0, 1, [TPC.done 0, TPC.done 0]⟩

lemma poolInv_init (n : Nat) : PoolInv (initSys n) := by
  left
  refine ⟨rfl, rfl, ?_⟩
  intro r hr
  have := List.eq_of_mem_replicate hr
  exact TPC.noConfusion this

lemma mem_of_mem_set {l : List TPC} {i : Nat} {x y : TPC}
    (h : y ∈ l.set i x) : y ∈ l ∨ y = x := by
  rcases List.mem_or_eq_of_mem_set h with h1 | h2
  · exact Or.inl h1
  · exact Or.inr h2

lemma poolInv_step {s t : Sys} (hinv : PoolInv s) (hs : PoolStep s t) : PoolInv t := by
  cases hs with
  | fastHit i p hi hp =>
    rcases hinv with ⟨h1, _, _⟩ | ⟨h1, h2, h3⟩
    · rw [h1] at hp; exact absurd hp (by simp)
    · right
      rw [h1] at hp
      have hp0 : p = 0 := (Option.some.injEq _ _ ▸ hp.symm)
      refine ⟨h1, h2, ?_⟩
      intro r hr
      rcases mem_of_mem_set hr with hmem | heq
      · exact h3 r hmem
      · cases heq; exact hp0
  | fastMiss i hi hp =>
    rcases hinv with ⟨h1, h2, h3⟩ | ⟨h1, _, _⟩
    · left
      refine ⟨hp, h2, ?_⟩
      intro r hr
      rcases mem_of_mem_set hr with hmem | heq
      · exact h3 r hmem
      · exact TPC.noConfusion heq
    · rw [h1] at hp; exact absurd hp (by simp)
  | lockedHit i p hi hp =>
    rcases hinv with ⟨h1, _, _⟩ | ⟨h1, h2, h3⟩
    · rw [h1] at hp; exact absurd hp (by simp)
    · right
      rw [h1] at hp
      have hp0 : p = 0 := (Option.some.injEq _ _ ▸ hp.symm)
      refine ⟨h1, h2, ?_⟩
      intro r hr
      rcases mem_of_mem_set hr with hmem | heq
      · exact h3 r hmem
      · cases heq; exact hp0
  | lockedCreate i hi hp =>
    rcases hinv with ⟨_, h2, h3⟩ | ⟨h1, _, _⟩
    · right
      refine ⟨by rw [h2], by rw [h2], ?_⟩
      intro r hr
      rcases mem_of_mem_set hr with hmem | heq
      · exact absurd hmem (h3 r)
      · rw [h2] at heq
        cases heq; rfl
    · rw [h1] at hp; exact absurd hp (by simp)

lemma poolInv_reaches {s t : Sys} (h : Reaches s t) (hs : PoolInv s) : PoolInv t := by
  induction h with
  | refl => exact hs
  | step hr hstep ih => exact poolInv_step ih hstep

lemma pooledTail_autocommit_events (α : Type) (bout : Except PyExn α)
    (cr rr : Option PyExn) : (pooledTail true bout cr rr).1 = [] := by
  cases bout <;> rfl

lemma pooledScope_events (α : Type) (a : ScopeArgs α)
    (hav : a.poolingAvailable = true) :
    (pooledScope a).events =
      pevOf a ++ Ev.acquire ::
        ((if a.dictRows then [Ev.setRF RF.dict] else []) ++
         (a.body (pooledYield a)).1 ++
         (pooledTail (a.body (pooledYield a)).2.2.autocommit
           (a.body (pooledYield a)).2.1 a.commitRes a.rollbackRes).1 ++
         [Ev.setRF a.pooledConn.rowFactory, Ev.release]) := by
  cases hp : a.pool <;>
    simp [pooledScope, get_pool_modelled, hav, hp, pevOf]

lemma pooledScope_outcome (α : Type) (a : ScopeArgs α)
    (hav : a.poolingAvailable = true) :
    (pooledScope a).outcome =
      (pooledTail (a.body (pooledYield a)).2.2.autocommit
        (a.body (pooledYield a)).2.1 a.commitRes a.rollbackRes).2 := by
  cases hp : a.pool <;>
    simp [pooledScope, get_pool_modelled, hav, hp]

lemma not_mem_body_of_onlyExecutes {α : Type}
    {body : ConnState → List Ev × Except PyExn α × ConnState}
    (hb : bodyOnlyExecutes body) (c : ConnState) {e : Ev}
    (he : ∀ q ps, e ≠ Ev.execute q ps) : e ∉ (body c).1 := by
  intro hmem
  rcases hb c e hmem with ⟨q, ps, rfl⟩
  exact he q ps rfl

/-- C3 counterexample: the unpooled branch (pool-disable flag "1") with a
body that switches the connection to autocommit and succeeds — the
provider still calls commit, contradicting the claim for the unpooled
path. -/
theorem c3_counterexample :
    unpooledMode c3args = true ∧
    (c3args.body (yieldedConn c3args)).2.2.autocommit = true ∧
    Ev.commit ∈ (connection_scope c3args).events := by
  refine ⟨by decide, rfl, by decide⟩

/-- C3 amended: on the pooled branch a set autocommit flag (at
transaction-finalisation time) suppresses the provider's explicit commit
and rollback; on the unpooled branch the provider commits on every
successful body and rolls back on every failing body unconditionally,
whatever the autocommit flag — each part quantified independently. -/
theorem c3_amended_autocommit_suppression :
    (∀ (α : Type) (a : ScopeArgs α), bodyOnlyExecutes a.body →
      (a.body (pooledYield a)).2.2.autocommit = true →
      Ev.commit ∉ (pooledScope a).events ∧
      Ev.rollback ∉ (pooledScope a).events) ∧
    (∀ (α : Type) (a : ScopeArgs α) (v : α),
      (a.body (connect_modelled a.env a.dictRows)).2.1 = Except.ok v →
      Ev.commit ∈ (unpooledScope a).events) ∧
    (∀ (α : Type) (a : ScopeArgs α) (e : PyExn),
      (a.body (connect_modelled a.env a.dictRows)).2.1 = Except.error e →
      Ev.rollback ∈ (unpooledScope a).events) := by
  refine ⟨?_, ?_, ?_⟩
  · intro α a hb hac
    have hbc : Ev.commit ∉ (a.body (pooledYield a)).1 :=
      not_mem_body_of_onlyExecutes hb _ (fun q ps h => Ev.noConfusion h)
    have hbr : Ev.rollback ∉ (a.body (pooledYield a)).1 :=
      not_mem_body_of_onlyExecutes hb _ (fun q ps h => Ev.noConfusion h)
    constructor
    · cases hav : a.poolingAvailable
      · simp [pooledScope, get_pool_modelled, hav]
      · rw [pooledScope_events α a hav, hac, pooledTail_autocommit_events]
        cases hp : a.pool <;> cases hd : a.dictRows <;>
          simp [pevOf, hp, hd, hbc]
    · cases hav : a.poolingAvailable
      · simp [pooledScope, get_pool_modelled, hav]
      · rw [pooledScope_events α a hav, hac, pooledTail_autocommit_events]
        cases hp : a.pool <;> cases hd : a.dictRows <;>
          simp [pevOf, hp, hd, hbr]
  · intro α a v hok
    rcases hcr : a.commitRes with _ | ce
    · simp [unpooledScope, hok, hcr]
    · rcases hrr : a.rollbackRes with _ | re <;>
        simp [unpooledScope, hok, hcr, hrr]
  · intro α a e herr
    rcases hrr : a.rollbackRes with _ | re <;>
      simp [unpooledScope, herr, hrr]

/-- C3 amended witness: a pooled scope whose body turns autocommit on and
fails performs neither commit nor rollback; the unpooled scope of the
counterexample (body succeeds, autocommit on) still commits; an unpooled
scope with a failing autocommit-on body still rolls back. -/
theorem c3_amended_autocommit_suppression_witness :
    Ev.commit ∉ (pooledScope c3autoArgs).events ∧
    Ev.rollback ∉ (pooledScope c3autoArgs).events ∧
    Ev.commit ∈ (unpooledScope c3args).events ∧
    Ev.rollback ∈ (unpooledScope c3autoArgs).events := by
  have h := c3_amended_autocommit_suppression
  have hp := h.1 Unit c3autoArgs (by intro c e he; simp [c3autoArgs] at he) rfl
  exact ⟨hp.1, hp.2, h.2.1 Unit c3args () rfl,
    h.2.2 Unit c3autoArgs (PyExn.userExn 1) rfl⟩

/-- C4 counterexample: a pooled scope whose body raises `userExn 0` and
whose rollback raises `dbExn 1` propagates the rollback error, not the
original failure — the original is replaced. -/
theorem c4_counterexample :
    (c4args.body (yieldedConn c4args)).2.1 = Except.error (PyExn.userExn 0) ∧
    (connection_scope c4args).outcome = Except.error (PyExn.dbExn 1) ∧
    PyExn.dbExn 1 ≠ PyExn.userExn 0 := by
  refine ⟨rfl, rfl, by decide⟩

/-- C4 amended: when the caller's body raises `e`, then (i) whenever the
connection is not in autocommit mode the provider calls rollback —
whether or not that rollback itself raises; (ii) if the rollback does
not raise, exactly `e` propagates to the caller; (iii) on the pooled
branch with autocommit set no rollback is due and `e` still propagates
(so the failure is never swallowed on any path); and (iv) if a due
rollback raises `re`, then `re` propagates instead while cleanup still
runs — the unpooled connection is closed, the pooled connection is
released with its row factory restored. -/
theorem c4_amended_rollback_and_reraise (α : Type) (a : ScopeArgs α)
    (e : PyExn) (hb : (a.body (yieldedConn a)).2.1 = Except.error e) :
    ((a.body (yieldedConn a)).2.2.autocommit = false →
      Ev.rollback ∈ (connection_scope a).events) ∧
    (a.rollbackRes = none →
      (connection_scope a).outcome = Except.error e) ∧
    (unpooledMode a = false →
      (a.body (yieldedConn a)).2.2.autocommit = true →
      (connection_scope a).outcome = Except.error e) ∧
    (∀ re : PyExn, a.rollbackRes = some re →
      (unpooledMode a = true ∨ (a.body (yieldedConn a)).2.2.autocommit = false) →
      (connection_scope a).outcome = Except.error re ∧
      (unpooledMode a = true → Ev.close ∈ (connection_scope a).events) ∧
      (unpooledMode a = false →
        Ev.release ∈ (connection_scope a).events ∧
        (connection_scope a).connAfter.rowFactory = a.pooledConn.rowFactory)) := by
  cases hum : unpooledMode a
  · cases hav : a.poolingAvailable
    · simp [unpooledMode, hav] at hum
    · have hy : yieldedConn a = pooledYield a := by simp [yieldedConn, hum]
      rw [hy] at hb ⊢
      have hcs : connection_scope a = pooledScope a := by
        simp [connection_scope, hum]
      rw [hcs]
      have hrestore : (pooledScope a).connAfter.rowFactory =
          a.pooledConn.rowFactory := by
        cases hp : a.pool <;>
          simp [pooledScope, get_pool_modelled, hav, hp]
      refine ⟨?_, ?_, ?_, ?_⟩
      · intro hacf
        rw [pooledScope_events α a hav, hb, hacf]
        rcases hrr : a.rollbackRes with _ | re <;> simp [pooledTail, hrr]
      · intro hr
        rw [pooledScope_outcome α a hav, hb, hr]
        cases hac : (a.body (pooledYield a)).2.2.autocommit <;>
          simp [pooledTail, hac]
      · intro _ hac
        rw [pooledScope_outcome α a hav, hb, hac]
        simp [pooledTail]
      · intro re hrr hor
        rcases hor with h | hacf
        · exact absurd h (by simp)
        · refine ⟨?_, fun h => absurd h (by simp), fun _ => ⟨?_, hrestore⟩⟩
          · rw [pooledScope_outcome α a hav, hb, hacf, hrr]
            simp [pooledTail]
          · rw [pooledScope_events α a hav]
            simp
  · have hy : yieldedConn a = connect_modelled a.env a.dictRows := by
      simp [yieldedConn, hum]
    rw [hy] at hb ⊢
    have hcs : connection_scope a = unpooledScope a := by
      simp [connection_scope, hum]
    rw [hcs]
    refine ⟨fun _ => ?_, fun hr => ?_, fun h => absurd h (by simp), ?_⟩
    · rcases hrr : a.rollbackRes with _ | re <;> simp [unpooledScope, hb, hrr]
    · simp [unpooledScope, hb, hr]
    · intro re hrr _
      refine ⟨?_, fun _ => ?_, fun h => absurd h (by simp)⟩ <;>
        simp [unpooledScope, hb, hrr]

/-- C4 amended witness: pooled scope, body raises `userExn 2`, rollback
succeeds: the scope rolls back and the caller sees exactly `userExn 2`;
with the failing rollback of the counterexample, the rollback error
propagates while the connection is still released with its row factory
restored. -/
theorem c4_amended_rollback_and_reraise_witness :
    (connection_scope c4okArgs).outcome = Except.error (PyExn.userExn 2) ∧
    Ev.rollback ∈ (connection_scope c4okArgs).events ∧
    (connection_scope c4args).outcome = Except.error (PyExn.dbExn 1) ∧
    Ev.release ∈ (connection_scope c4args).events ∧
    (connection_scope c4args).connAfter.rowFactory = RF.tuple := by
  have h1 := c4_amended_rollback_and_reraise Unit c4okArgs (PyExn.userExn 2) rfl
  have h2 := c4_amended_rollback_and_reraise Unit c4args (PyExn.userExn 0) rfl
  have h4 := h2.2.2.2 (PyExn.dbExn 1) rfl (Or.inr rfl)
  exact ⟨h1.2.1 rfl, h1.1 rfl, h4.1, (h4.2.2 rfl).1, (h4.2.2 rfl).2⟩

/-- C1: the name `_build_connect_kwargs` is bound nowhere in the source
module, so every call to `connect` raises NameError before opening a
connection, and the first-ever call to `get_pool` (pooling library
available, `_POOL` still unset) raises NameError on its construction
branch before any pool is created: `_POOL` stays `None`, the
construction counter does not move, and no event is performed. -/
theorem c1_name_error_on_connect_and_pool_init :
    moduleTopLevelNames.contains "_build_connect_kwargs" = false ∧
    (∀ (env : Env) (d : Bool),
      connect env d = Except.error (PyExn.nameError "_build_connect_kwargs")) ∧
    (∀ (env : Env) (nid : Nat),
      get_pool true env none nid =
        (Except.error (PyExn.nameError "_build_connect_kwargs"), none, nid, [])) := by
  have h : hasBuildConnectKwargs = false := by decide
  refine ⟨by decide, ?_, ?_⟩
  · intro env d
    simp [connect, h]
  · intro env nid
    simp [get_pool, h]

/-- C5: on the pooled branch, the connection's row-factory mode is saved
on acquisition and restored on every exit path (success, caller failure,
commit/rollback failure — the restore sits in `finally`), whatever the
body did to it; hence a later scope that borrows the same connection
without requesting dict rows yields it with the original mode. -/
theorem c5_pooled_row_factory_restored :
    ∀ (α : Type) (a : ScopeArgs α),
      (pooledScope a).connAfter.rowFactory = a.pooledConn.rowFactory ∧
      ∀ (β : Type) (b : ScopeArgs β), b.dictRows = false →
        b.pooledConn = (pooledScope a).connAfter →
        (pooledYield b).rowFactory = a.pooledConn.rowFactory := by
  intro α a
  have hmain : (pooledScope a).connAfter.rowFactory = a.pooledConn.rowFactory := by
    cases hav : a.poolingAvailable
    · simp [pooledScope, get_pool_modelled, hav]
    · cases hp : a.pool
      · simp [pooledScope, get_pool_modelled, hav, hp]
      · simp [pooledScope, get_pool_modelled, hav, hp]
  refine ⟨hmain, ?_⟩
  intro β b hbd hbc
  simp [pooledYield, hbd, hbc, hmain]

/-- C5 witness: a dict-rows scope whose body installs a custom factory
and fails, with rollback also failing, still hands the connection back
with its original custom mode, and a following non-dict scope sees it. -/
theorem c5_pooled_row_factory_restored_witness :
    (pooledScope c5args).connAfter.rowFactory = RF.custom 7 ∧
    (pooledYield c5argsNext).rowFactory = RF.custom 7 := by
  have h := c5_pooled_row_factory_restored Unit c5args
  exact ⟨h.1, h.2 Unit c5argsNext rfl rfl⟩

/-- C6: for every environment, the pool sizes computed on the
construction branch satisfy `1 ≤ min_size` and `min_size ≤ max_size`,
and first-time pool construction uses exactly these sizes. -/
theorem c6_pool_sizes_defended :
    ∀ env : Env, 1 ≤ min_size env ∧ min_size env ≤ max_size env ∧
      ∀ nid : Nat, (get_pool_modelled true env none nid).2.2.2 =
        [Ev.poolCreate (min_size env) (max_size env)] := by
  intro env
  refine ⟨le_max_left _ _, le_max_left _ _, fun nid => ?_⟩
  simp [get_pool_modelled]

/-- C7: `_env_int` returns the documented default, raising nothing, for
every variable that is unset or whose value Python `int` rejects. -/
theorem c7_env_int_defaults (env : Env) (name : String) (d : Int)
    (h : env name = none ∨ ∃ raw, env name = some raw ∧ pyInt raw = none) :
    _env_int env name d = d := by
  rcases h with h | ⟨raw, h1, h2⟩
  · simp [_env_int, h]
  · simp [_env_int, h1, h2]

/-- C7 witness: the value "five" fails to parse and the default 1 is
returned. -/
theorem c7_env_int_defaults_witness :
    pyInt "five" = none ∧
    _env_int (fun _ => some "five") "SPEEDLIMIT_POOL_MIN_SIZE" 1 = 1 :=
  ⟨by decide,
   c7_env_int_defaults (fun _ => some "five") "SPEEDLIMIT_POOL_MIN_SIZE" 1
     (Or.inr ⟨"five", rfl, by decide⟩)⟩

/-- C10: with the pooling library unavailable, every `get_pool` call
fails at once with the RuntimeError whose message tells the caller to
install psycopg-pool or set the disable flag; `_POOL` is untouched, the
construction counter does not move, and no pool-construction or
connection event happens; nothing is retried. -/
theorem c10_get_pool_fails_fast_without_pooling_lib :
    ∀ (env : Env) (pool : Option Nat) (nid : Nat),
      get_pool false env pool nid =
        (Except.error (PyExn.runtimeError poolingErrorMsg), pool, nid, []) ∧
      strOccurs "Install the \x27psycopg-pool\x27 package" poolingErrorMsg = true ∧
      strOccurs "SPEEDLIMIT_DISABLE_POOLING=1" poolingErrorMsg = true := by
  intro env pool nid
  exact ⟨rfl, by decide, by decide⟩

/-- C2: from any number of threads interleaving through `get_pool`'s
double-checked locking, every state reachable from the initial one has
at most one pool construction (the counter never passes 1), and any two
threads that have returned returned the same pool instance. -/
theorem c2_get_pool_singleton (n : Nat) (s : Sys)
    (h : Reaches (initSys n) s) :
    s.nextId ≤ 1 ∧
    ∀ r r' : Nat, TPC.done r ∈ s.threads → TPC.done r' ∈ s.threads →
      r = r' := by
  rcases poolInv_reaches h (poolInv_init n) with ⟨_, h2, h3⟩ | ⟨_, h2, h3⟩
  · refine ⟨by rw [h2]; exact Nat.zero_le 1, ?_⟩
    intro r r' hr _
    exact absurd hr (h3 r)
  · refine ⟨le_of_eq h2, ?_⟩
    intro r r' hr hr'
    rw [h3 r hr, h3 r' hr']

/-- C2 witness: two racing threads — one misses the fast check, locks and
constructs; the other then hits the fast check — end with the counter at
1 and both holding the same pool. -/
theorem c2_get_pool_singleton_witness :
    c2s3.nextId ≤ 1 ∧
    ∀ r r' : Nat, TPC.done r ∈ c2s3.threads → TPC.done r' ∈ c2s3.threads →
      r = r' := by
  have st1 : PoolStep (initSys 2) c2s1 := PoolStep.fastMiss (initSys 2) 0 rfl rfl
  have st2 : PoolStep c2s1 c2s2 := PoolStep.lockedCreate c2s1 0 rfl rfl
  have st3 : PoolStep c2s2 c2s3 := PoolStep.fastHit c2s2 1 0 rfl rfl
  exact c2_get_pool_singleton 2 c2s3
    (Reaches.step (Reaches.step (Reaches.step (Reaches.refl _) st1) st2) st3)

lemma pooledTail_events_sub (α : Type) (ac : Bool) (bout : Except PyExn α)
    (cr rr : Option PyExn) :
    ∀ e, e ∈ (pooledTail ac bout cr rr).1 → e = Ev.commit ∨ e = Ev.rollback := by
  intro e he
  cases bout <;> cases ac <;> rcases cr with _ | ce <;> rcases rr with _ | re <;>
    simp [pooledTail] at he <;> tauto

/-- C8: the provider uses a fresh unpooled connection — opened, closed at
exit, with the shared pool neither consulted, constructed nor advanced —
exactly when the disable flag reads "1" or the pooling library is
unavailable; in every other case it borrows from and returns to the
shared pool and opens no fresh connection. -/
theorem c8_strategy_selection (α : Type) (a : ScopeArgs α)
    (hb : bodyOnlyExecutes a.body) :
    ((envGet a.env "SPEEDLIMIT_DISABLE_POOLING" "0" = "1" ∨
        a.poolingAvailable = false) →
      Ev.connect a.dictRows ∈ (connection_scope a).events ∧
      Ev.close ∈ (connection_scope a).events ∧
      Ev.acquire ∉ (connection_scope a).events ∧
      Ev.release ∉ (connection_scope a).events ∧
      (∀ mn mx : Int, Ev.poolCreate mn mx ∉ (connection_scope a).events) ∧
      (connection_scope a).poolAfter = a.pool ∧
      (connection_scope a).nextIdAfter = a.nextId) ∧
    ((envGet a.env "SPEEDLIMIT_DISABLE_POOLING" "0" ≠ "1" ∧
        a.poolingAvailable = true) →
      Ev.acquire ∈ (connection_scope a).events ∧
      Ev.release ∈ (connection_scope a).events ∧
      (∀ d : Bool, Ev.connect d ∉ (connection_scope a).events) ∧
      Ev.close ∉ (connection_scope a).events) := by
  have hA : ∀ c, Ev.acquire ∉ (a.body c).1 :=
    fun c => not_mem_body_of_onlyExecutes hb c (fun q ps h => Ev.noConfusion h)
  have hRel : ∀ c, Ev.release ∉ (a.body c).1 :=
    fun c => not_mem_body_of_onlyExecutes hb c (fun q ps h => Ev.noConfusion h)
  have hP : ∀ c (mn mx : Int), Ev.poolCreate mn mx ∉ (a.body c).1 :=
    fun c mn mx =>
      not_mem_body_of_onlyExecutes hb c (fun q ps h => Ev.noConfusion h)
  have hC : ∀ c (d : Bool), Ev.connect d ∉ (a.body c).1 :=
    fun c d => not_mem_body_of_onlyExecutes hb c (fun q ps h => Ev.noConfusion h)
  have hCl : ∀ c, Ev.close ∉ (a.body c).1 :=
    fun c => not_mem_body_of_onlyExecutes hb c (fun q ps h => Ev.noConfusion h)
  constructor
  · intro hcond
    have hum : unpooledMode a = true := by
      rcases hcond with h1 | h1
      · simp [unpooledMode, disablePooling, h1]
      · simp [unpooledMode, h1]
    have hcs : connection_scope a = unpooledScope a := by
      simp [connection_scope, hum]
    rw [hcs]
    cases hres : (a.body (connect_modelled a.env a.dictRows)).2.1 with
    | ok v =>
      rcases hcr : a.commitRes with _ | ce
      · simp [unpooledScope, hres, hcr, hA, hRel, hP, hC, hCl]
      · rcases hrr : a.rollbackRes with _ | re <;>
          simp [unpooledScope, hres, hcr, hrr, hA, hRel, hP, hC, hCl]
    | error e =>
      rcases hrr : a.rollbackRes with _ | re <;>
        simp [unpooledScope, hres, hrr, hA, hRel, hP, hC, hCl]
  · intro hcond
    have hum : unpooledMode a = false := by
      simp [unpooledMode, disablePooling, hcond.1, hcond.2]
    have hcs : connection_scope a = pooledScope a := by
      simp [connection_scope, hum]
    have hsub := pooledTail_events_sub α (a.body (pooledYield a)).2.2.autocommit
      (a.body (pooledYield a)).2.1 a.commitRes a.rollbackRes
    rw [hcs, pooledScope_events α a hcond.2]
    refine ⟨?_, ?_, ?_, ?_⟩
    · simp
    · simp
    · intro d
      cases hp : a.pool <;> cases hd : a.dictRows <;>
        simp [pevOf, hp, hd, hC] <;>
        · intro hmem
          rcases hsub _ hmem with h | h <;> exact Ev.noConfusion h
    · cases hp : a.pool <;> cases hd : a.dictRows <;>
        simp [pevOf, hp, hd, hCl] <;>
        · intro hmem
          rcases hsub _ hmem with h | h <;> exact Ev.noConfusion h

/-- C8 witness: with nothing disabling pooling, the scope borrows from
and returns to the pool and opens no fresh connection. -/
theorem c8_strategy_selection_witness :
    Ev.acquire ∈ (connection_scope c8args).events ∧
    Ev.close ∉ (connection_scope c8args).events := by
  have h := c8_strategy_selection Unit c8args
    (by intro c e he; simp [c8args] at he; exact ⟨_, _, he⟩)
  have h2 := h.2 ⟨by decide, rfl⟩
  exact ⟨h2.1, h2.2.2.2⟩

/-- C9: `fetch_value` executes the query exactly once inside a scope it
opens in plain-row mode (no dict-row switch ever happens, and any fresh
connection is opened without dict rows), and — with the driver's commit
succeeding — returns the first column of the first row when a non-empty
row matched, or `None` when no row matched, raising nothing. -/
theorem c9_fetch_value_scalar (env : Env) (avail : Bool) (pool : Option Nat)
    (nid : Nat) (pc : ConnState) (rr : Option PyExn)
    (q : String) (ps : List Nat) (rows : List (List Nat)) :
    ((fetch_value env avail pool nid pc none rr q ps rows).events.count
        (Ev.execute q ps) = 1) ∧
    (rows = [] →
      (fetch_value env avail pool nid pc none rr q ps rows).outcome =
        Except.ok none) ∧
    (∀ row rest, rows = row :: rest → row ≠ [] →
      ∃ v, row.head? = some v ∧
        (fetch_value env avail pool nid pc none rr q ps rows).outcome =
          Except.ok (some v)) ∧
    (∀ m : RF,
      Ev.setRF m ∈ (fetch_value env avail pool nid pc none rr q ps rows).events →
        m = pc.rowFactory) ∧
    (∀ d : Bool,
      Ev.connect d ∈ (fetch_value env avail pool nid pc none rr q ps rows).events →
        d = false) := by
  refine ⟨?_, ?_, ?_, ?_, ?_⟩
  · cases hd : disablePooling env <;> cases hav2 : avail
    · simp [fetch_value, connection_scope, unpooledMode, hd, hav2,
        unpooledScope, List.count_cons]
    · cases hp : pool <;> cases hac : pc.autocommit <;>
        simp [fetch_value, connection_scope, unpooledMode, hd, hav2,
          pooledScope, get_pool_modelled, pooledYield, pooledTail, hp, hac,
          List.count_cons, List.count_append]
    · simp [fetch_value, connection_scope, unpooledMode, hd, hav2,
        unpooledScope, List.count_cons]
    · simp [fetch_value, connection_scope, unpooledMode, hd, hav2,
        unpooledScope, List.count_cons]
  · intro h0
    subst h0
    cases hd : disablePooling env <;> cases hav2 : avail
    · simp [fetch_value, connection_scope, unpooledMode, hd, hav2,
        unpooledScope]
    · cases hp : pool <;> cases hac : pc.autocommit <;>
        simp [fetch_value, connection_scope, unpooledMode, hd, hav2,
          pooledScope, get_pool_modelled, pooledYield, pooledTail, hp, hac]
    · simp [fetch_value, connection_scope, unpooledMode, hd, hav2,
        unpooledScope]
    · simp [fetch_value, connection_scope, unpooledMode, hd, hav2,
        unpooledScope]
  · intro row rest hrows hne
    subst hrows
    cases row with
    | nil => exact absurd rfl hne
    | cons v t =>
      refine ⟨v, rfl, ?_⟩
      cases hd : disablePooling env <;> cases hav2 : avail
      · simp [fetch_value, connection_scope, unpooledMode, hd, hav2,
          unpooledScope]
      · cases hp : pool <;> cases hac : pc.autocommit <;>
          simp [fetch_value, connection_scope, unpooledMode, hd, hav2,
            pooledScope, get_pool_modelled, pooledYield, pooledTail, hp, hac]
      · simp [fetch_value, connection_scope, unpooledMode, hd, hav2,
          unpooledScope]
      · simp [fetch_value, connection_scope, unpooledMode, hd, hav2,
          unpooledScope]
  · intro m
    cases hd : disablePooling env <;> cases hav2 : avail
    · simp [fetch_value, connection_scope, unpooledMode, hd, hav2,
        unpooledScope]
    · cases hp : pool <;> cases hac : pc.autocommit <;>
        simp [fetch_value, connection_scope, unpooledMode, hd, hav2,
          pooledScope, get_pool_modelled, pooledYield, pooledTail, hp, hac]
    · simp [fetch_value, connection_scope, unpooledMode, hd, hav2,
        unpooledScope]
    · simp [fetch_value, connection_scope, unpooledMode, hd, hav2,
        unpooledScope]
  · intro d
    cases hd : disablePooling env <;> cases hav2 : avail
    · simp [fetch_value, connection_scope, unpooledMode, hd, hav2,
        unpooledScope]
    · cases hp : pool <;> cases hac : pc.autocommit <;>
        simp [fetch_value, connection_scope, unpooledMode, hd, hav2,
          pooledScope, get_pool_modelled, pooledYield, pooledTail, hp, hac]
    · simp [fetch_value, connection_scope, unpooledMode, hd, hav2,
        unpooledScope]
    · simp [fetch_value, connection_scope, unpooledMode, hd, hav2,
        unpooledScope]

/-- C9 witness: a query matching zero rows yields `Except.ok none` (no
error) and is executed exactly once. -/
theorem c9_fetch_value_scalar_witness :
    (fetch_value emptyEnv true (some 0) 1 ⟨RF.tuple, false⟩ none none
        "SELECT 1" [] []).outcome = Except.ok none ∧
    (fetch_value emptyEnv true (some 0) 1 ⟨RF.tuple, false⟩ none none
        "SELECT 1" [] []).events.count (Ev.execute "SELECT 1" []) = 1 := by
  have h := c9_fetch_value_scalar emptyEnv true (some 0) 1 ⟨RF.tuple, false⟩
    none "SELECT 1" [] []
  exact ⟨h.2.1 rfl, h.1⟩

example : pyInt "  42 " = some 42 := by decide
example : pyInt "1_000" = some 1000 := by decide
example : pyInt "abc" = none := by decide
example : pyInt "1__0" = none := by decide
example : pyInt "-7" = some (-7) := by decide
example : pyInt "" = none := by decide
example : pyInt "+3" = some 3 := by decide
example : hasBuildConnectKwargs = false := by decide
